import Mathlib

/-!
# Verification of the sumaslo-analyzer analysis engine specification

Shallow embedding of the repository's frontend analysis page
(`src/frontend/app/analysis/page.tsx`) and of the analysis engine described
by the design specification.  The repository ships only the UI layer; the
engine components (feature extractor, statistical analyzer, prediction
model, score combiner, orchestrator) are modelled from the specification's
words, each such definition marked `Modelled from the spec:`.
Numbers are embedded as `ℚ` (JavaScript / Python numerics restricted to the
exact comparisons and arithmetic the claims mention), counts as `ℕ`, and
coin differences as `ℤ`.
-/

namespace Sumaslo

/-! ## Frontend data shapes (`src/frontend/app/analysis/page.tsx`) -/

/-- One entry of `high_performers` inside the `AnalysisResult` interface of
`src/frontend/app/analysis/page.tsx` (lines 22-26). -/
structure HighPerformer where
  machine_number : Nat
  model_name : String
  total_difference : Int
deriving DecidableEq, Repr

/-- The `statistical_analysis` object inside `AnalysisResult.analysis_details`
(`page.tsx` lines 18-27). -/
structure StatisticalAnalysis where
  average_game_count : ℚ
  average_difference : ℚ
  positive_machines_count : Nat
  high_performers : List HighPerformer
deriving DecidableEq, Repr

/-- The `analysis_details` object of `AnalysisResult` (`page.tsx` lines 17-30). -/
structure AnalysisDetails where
  statistical_analysis : StatisticalAnalysis
  total_machines : Nat
  analysis_date : String
deriving DecidableEq, Repr

/-- The `AnalysisResult` interface of `src/frontend/app/analysis/page.tsx`
(lines 12-31): the prediction shape consumed by the presentation layer. -/
structure AnalysisResult where
  store_name : String
  high_setting_probability : ℚ
  confidence_score : ℚ
  recommended_machines : List Nat
  analysis_details : AnalysisDetails
deriving DecidableEq, Repr

/-- The field names declared by the `AnalysisResult` interface in
`src/frontend/app/analysis/page.tsx`, flattened with dots for the nested
`analysis_details` and `statistical_analysis` objects, transcribed in source
order. -/
def analysisResultFields : List String :=
  ["store_name",
   "high_setting_probability",
   "confidence_score",
   "recommended_machines",
   "analysis_details.statistical_analysis.average_game_count",
   "analysis_details.statistical_analysis.average_difference",
   "analysis_details.statistical_analysis.positive_machines_count",
   "analysis_details.statistical_analysis.high_performers",
   "analysis_details.total_machines",
   "analysis_details.analysis_date"]

/-- The presentation-facing contract fields enumerated by the specification
(§3 / §6): a probability, a confidence score, a recommended-machine number
list, the embedded statistical summary (average game count, average net
difference, positive-machine count, high performers) and a total machine
count, written in the flattened naming of `analysisResultFields`. -/
def specContractFields : List String :=
  ["high_setting_probability",
   "confidence_score",
   "recommended_machines",
   "analysis_details.statistical_analysis.average_game_count",
   "analysis_details.statistical_analysis.average_difference",
   "analysis_details.statistical_analysis.positive_machines_count",
   "analysis_details.statistical_analysis.high_performers",
   "analysis_details.total_machines"]

/-! ## Probability colour helpers (`page.tsx` lines 79-89) -/

/-- `getProbabilityColor` from `src/frontend/app/analysis/page.tsx`
(lines 79-83): text colour class for a probability. -/
def getProbabilityColor (probability : ℚ) : String :=
  if probability ≥ 0.7 then "text-green-600"
  else if probability ≥ 0.4 then "text-yellow-600"
  else "text-red-600"

/-- `getProbabilityBgColor` from `src/frontend/app/analysis/page.tsx`
(lines 85-89): background colour class for a probability. -/
def getProbabilityBgColor (probability : ℚ) : String :=
  if probability ≥ 0.7 then "bg-green-100"
  else if probability ≥ 0.4 then "bg-yellow-100"
  else "bg-red-100"

/-! ## The `analyzeStore` handler (`page.tsx` lines 59-77) -/

/-- A thrown JavaScript value as `analyzeStore`'s catch block distinguishes
it: an `Error` carrying a message, or any other value. -/
inductive JsError
  | error (message : String)
  | other
deriving DecidableEq, Repr

/-- The message the catch block of `analyzeStore` derives from a thrown
value: `err instanceof Error ? err.message : "エラーが発生しました"`. -/
def catchMessage : JsError → String
  | .error m => m
  | .other => "エラーが発生しました"

/-- How one invocation of `analyzeStore` resolves: the fetch succeeded with
`response.ok` and parsed data, or the response was not ok (the code then
throws `Error("分析に失敗しました")`), or fetch / json threw a value. -/
inductive AnalyzeOutcome
  | ok (data : AnalysisResult)
  | httpError
  | thrown (e : JsError)
deriving DecidableEq, Repr

/-- The component state `analyzeStore` touches: `analysisResult`, `loading`
and `error` (React `useState` hooks, `page.tsx` lines 36-40). -/
structure PageState where
  analysisResult : Option AnalysisResult
  loading : Bool
  error : Option String
deriving DecidableEq, Repr

/-- `analyzeStore` from `src/frontend/app/analysis/page.tsx` (lines 59-77)
as a state transformer: `setLoading(true); setError(null)`, then the
try block sets `analysisResult` on success, the catch block sets `error`
to the caught message, and the finally block runs `setLoading(false)`. -/
def analyzeStore (s : PageState) (outcome : AnalyzeOutcome) : PageState :=
  let s1 : PageState := { s with loading := true, error := none }
  let s2 : PageState :=
    match outcome with
    | .ok data => { s1 with analysisResult := some data }
    | .httpError => { s1 with error := some (catchMessage (.error "分析に失敗しました")) }
    | .thrown e => { s1 with error := some (catchMessage e) }
  { s2 with loading := false }

/-! ## Engine data model

Modelled from the spec: the repository contains no engine code (the spec's
§2 budget note records this), so the engine is embedded from the
specification's §3-§4.5 and the README's `slot_machines` schema. -/

/-- Modelled from the spec: a `MachineRecord` (§3, README `slot_machines`
table, the source repository holds no backend code) — one machine's
observation for one day. -/
structure MachineRecord where
  store_id : Nat
  machine_number : Nat
  model_name : String
  game_count : Nat
  big_bonus : Nat
  regular_bonus : Nat
  art_count : Nat
  total_difference : Int
  data_date : Nat
deriving DecidableEq, Repr

/-- Modelled from the spec: an observation window (§4.1), dates as day
indices; the window is the closed interval from `wstart` to `wend`. -/
structure Window where
  wstart : Nat
  wend : Nat
deriving DecidableEq, Repr

/-- Modelled from the spec: whether a record's observation date falls in
the window (§4.1, feature extractor absent from the repository). -/
def inWindow (w : Window) (r : MachineRecord) : Bool :=
  w.wstart ≤ r.data_date && r.data_date ≤ w.wend

/-- Modelled from the spec: a record's bonus count — the big-bonus,
regular-bonus and accumulated bonus/ART counts of §3 added up. -/
def bonusCount (r : MachineRecord) : Nat :=
  r.big_bonus + r.regular_bonus + r.art_count

/-- Modelled from the spec: a `FeatureVector` (§3, derived, not persisted,
feature extractor absent from the repository) — per machine: game count,
net difference, bonus rate and positive indicator. -/
structure FeatureVector where
  machine_number : Nat
  model_name : String
  game_count : Nat
  total_difference : Int
  bonus_rate : ℚ
  positive : Bool
deriving DecidableEq, Repr

/-- Modelled from the spec: aggregation of one machine's records in the
window (§4.1) — total game count, total net difference, bonus rate defined
as 0 when the game count is 0, positive flag (net difference > 0). -/
def aggregateMachine (n : Nat) (rs : List MachineRecord) : FeatureVector :=
  let g := (rs.map (fun r => r.game_count)).sum
  let d := (rs.map (fun r => r.total_difference)).sum
  let b := (rs.map bonusCount).sum
  { machine_number := n
    model_name := ((rs.head?).map (fun r => r.model_name)).getD ""
    game_count := g
    total_difference := d
    bonus_rate := if g = 0 then 0 else (b : ℚ) / (g : ℚ)
    positive := decide (0 < d) }

/-- Modelled from the spec: the Feature Extractor (§4.1, absent from the
repository) — the per-store feature matrix: one `FeatureVector` per machine
observed in the window. -/
def extractFeatures (records : List MachineRecord) (w : Window) : List FeatureVector :=
  let rs := records.filter (inWindow w)
  ((rs.map (fun r => r.machine_number)).dedup).map
    (fun n => aggregateMachine n (rs.filter (fun r => r.machine_number == n)))

/-! ## Statistical Analyzer -/

/-- Modelled from the spec: a `StatisticalSummary` (§3, derived, the
statistical analyzer is absent from the repository). -/
structure StatisticalSummary where
  average_game_count : ℚ
  average_difference : ℚ
  positive_machines_count : Nat
  high_performers : List HighPerformer
  total_machines : Nat
deriving DecidableEq, Repr

/-- Modelled from the spec: the top-performer order (§4.2) — net difference
descending, ties broken by ascending machine number. `perfLE a b` holds
when `a` ranks at least as high as `b`. -/
def perfLE (a b : FeatureVector) : Prop :=
  b.total_difference < a.total_difference ∨
    (a.total_difference = b.total_difference ∧ a.machine_number ≤ b.machine_number)

instance : DecidableRel perfLE := fun a b =>
  inferInstanceAs (Decidable (_ ∨ _ ∧ _))

instance : IsTotal FeatureVector perfLE where
  total a b := by
    unfold perfLE
    rcases lt_trichotomy a.total_difference b.total_difference with h | h | h
    · exact Or.inr (Or.inl h)
    · rcases Nat.le_total a.machine_number b.machine_number with h2 | h2
      · exact Or.inl (Or.inr ⟨h, h2⟩)
      · exact Or.inr (Or.inr ⟨h.symm, h2⟩)
    · exact Or.inl (Or.inl h)

instance : IsTrans FeatureVector perfLE where
  trans a b c hab hbc := by
    unfold perfLE at *
    rcases hab with h1 | ⟨h1, h1n⟩ <;> rcases hbc with h2 | ⟨h2, h2n⟩
    · exact Or.inl (h2.trans h1)
    · exact Or.inl (h2 ▸ h1)
    · exact Or.inl (h1 ▸ h2)
    · exact Or.inr ⟨h1.trans h2, h1n.trans h2n⟩

/-- Modelled from the spec: the top performers (§4.2) — the top 5 machines
by net difference descending, tie-break by ascending machine number, a
shorter list when fewer than 5 machines exist. -/
def topPerformers (m : List FeatureVector) : List FeatureVector :=
  (List.insertionSort perfLE m).take 5

/-- Modelled from the spec: average game count (§4.2) — arithmetic mean
over all machines, 0 for an empty matrix. -/
def averageGameCount (m : List FeatureVector) : ℚ :=
  if m.length = 0 then 0
  else (((m.map (fun v => v.game_count)).sum : ℕ) : ℚ) / (m.length : ℚ)

/-- Modelled from the spec: average net difference (§4.2) — arithmetic mean
over all machines, 0 for an empty matrix. -/
def averageDifference (m : List FeatureVector) : ℚ :=
  if m.length = 0 then 0
  else (((m.map (fun v => v.total_difference)).sum : ℤ) : ℚ) / (m.length : ℚ)

/-- Modelled from the spec: positive-machine count (§4.2) — the number of
machines with net difference > 0. -/
def positiveCount (m : List FeatureVector) : Nat :=
  (m.filter (fun v => v.positive)).length

/-- Modelled from the spec: the Statistical Analyzer (§4.2, absent from the
repository) — the `StatisticalSummary` of a feature matrix. -/
def summarize (m : List FeatureVector) : StatisticalSummary :=
  { average_game_count := averageGameCount m
    average_difference := averageDifference m
    positive_machines_count := positiveCount m
    high_performers :=
      (topPerformers m).map (fun v =>
        { machine_number := v.machine_number
          model_name := v.model_name
          total_difference := v.total_difference })
    total_machines := m.length }

/-! ## Prediction Model -/

/-- Modelled from the spec: the two scoring variants (§4.3, tagged variant
per §9) — a trained estimator or the heuristic fallback. -/
inductive ModelVariant
  | trained
  | heuristic
deriving DecidableEq, Repr

/-- Modelled from the spec: the Prediction Model output (§4.3) — a
per-store probability and per-machine relevance scores, the latter absent
for the heuristic fallback (the combiner then falls back to net
difference, §4.4). -/
structure ModelOutput where
  probability : ℚ
  relevance : Option (List (Nat × ℚ))
deriving DecidableEq, Repr

/-- Modelled from the spec: the minimum machine count below which the
trained estimator is not trusted (§4.3, "fewer than a minimum machine
count"); the concrete value is a configuration choice. -/
def minTrustedMachines : Nat := 5

/-- Modelled from the spec: the statistics-derived probability proxy (§4.4,
"e.g. positive-machine ratio") — positive machines over total machines, 0
when the summary is empty. -/
def statProxy (s : StatisticalSummary) : ℚ :=
  if s.total_machines = 0 then 0
  else (s.positive_machines_count : ℚ) / (s.total_machines : ℚ)

/-- Modelled from the spec: the heuristic fallback model (§4.3, "a fixed
formula over the StatisticalSummary, e.g. normalized positive-machine
ratio"), reporting no per-machine relevance scores. -/
def heuristicModel (m : List FeatureVector) : ModelOutput :=
  { probability := statProxy (summarize m), relevance := none }

/-- Modelled from the spec: base confidence of each variant (§4.3,
trained-estimator results report higher confidence than heuristic
fallback results); concrete values are a configuration choice. -/
def baseConfidence : ModelVariant → ℚ
  | .trained => 4 / 5
  | .heuristic => 1 / 4

/-- Modelled from the spec: the input-size factor of the confidence score
(§4.3, confidence scales down as the matrix size falls below the minimum
trusted threshold). -/
def sizeFactor (n : Nat) : ℚ :=
  min 1 ((n : ℚ) / (minTrustedMachines : ℚ))

/-- Modelled from the spec: the confidence score (§4.3) — a function of the
variant used and the feature-matrix size. -/
def confidenceScore (v : ModelVariant) (n : Nat) : ℚ :=
  baseConfidence v * sizeFactor n

/-- Modelled from the spec: model selection (§4.3) — the heuristic fallback
is used when no trained estimator is available or the matrix is smaller
than the minimum trusted machine count; the trained estimator is passed in
abstractly as a scoring function. -/
def runModel (trained : Option (List FeatureVector → ModelOutput))
    (m : List FeatureVector) : ModelVariant × ModelOutput :=
  match trained with
  | some f =>
      if minTrustedMachines ≤ m.length then (.trained, f m)
      else (.heuristic, heuristicModel m)
  | none => (.heuristic, heuristicModel m)

/-! ## Score Combiner / Recommender -/

/-- Modelled from the spec: the minimum relevance threshold for a machine
to be recommended (§4.4, "above a minimum threshold"); the concrete value
is a configuration choice. -/
def minRelevance : ℚ := 0

/-- Modelled from the spec: the recommendation order (§4.4) — relevance
descending, ties broken by ascending machine number, over
(machine number, relevance) pairs. `relLE a b` holds when `a` ranks at
least as high as `b`. -/
def relLE (a b : Nat × ℚ) : Prop :=
  b.2 < a.2 ∨ (a.2 = b.2 ∧ a.1 ≤ b.1)

instance : DecidableRel relLE := fun a b =>
  inferInstanceAs (Decidable (_ ∨ _ ∧ _))

instance : IsTotal (Nat × ℚ) relLE where
  total a b := by
    unfold relLE
    rcases lt_trichotomy a.2 b.2 with h | h | h
    · exact Or.inr (Or.inl h)
    · rcases Nat.le_total a.1 b.1 with h2 | h2
      · exact Or.inl (Or.inr ⟨h, h2⟩)
      · exact Or.inr (Or.inr ⟨h.symm, h2⟩)
    · exact Or.inl (Or.inl h)

instance : IsTrans (Nat × ℚ) relLE where
  trans a b c hab hbc := by
    unfold relLE at *
    rcases hab with h1 | ⟨h1, h1n⟩ <;> rcases hbc with h2 | ⟨h2, h2n⟩
    · exact Or.inl (h2.trans h1)
    · exact Or.inl (h2 ▸ h1)
    · exact Or.inl (h1 ▸ h2)
    · exact Or.inr ⟨h1.trans h2, h1n.trans h2n⟩

/-- Modelled from the spec: a machine's combined relevance (§4.4) — the
model relevance score, or, if unavailable, its net difference. -/
def relevanceOf (rel : Option (List (Nat × ℚ))) (v : FeatureVector) : ℚ :=
  match rel with
  | some scores =>
      match scores.lookup v.machine_number with
      | some r => r
      | none => (v.total_difference : ℚ)
  | none => (v.total_difference : ℚ)

/-- Modelled from the spec: the recommendation pipeline before projecting
to machine numbers (§4.4) — machines above the minimum relevance, sorted
descending by relevance with ties broken by ascending machine number,
capped at 5. -/
def recommendedPairs (scored : List (Nat × ℚ)) : List (Nat × ℚ) :=
  (List.insertionSort relLE (scored.filter (fun p => decide (minRelevance < p.2)))).take 5

/-- Modelled from the spec: the recommended machine list (§4.4) — machine
numbers of the recommended pairs. -/
def recommendMachines (scored : List (Nat × ℚ)) : List Nat :=
  (recommendedPairs scored).map Prod.fst

/-- Modelled from the spec: the final probability (§4.4) — a weighted
combination of model probability and statistics proxy, the weight favoring
the model when confidence is high and statistics when it is low; the
confidence itself is taken as the default weight. -/
def combineProbability (modelProb conf proxy : ℚ) : ℚ :=
  conf * modelProb + (1 - conf) * proxy

/-- Modelled from the spec: the Prediction shape the engine produces (§3,
presentation contract of §6): probability, confidence, recommended
machines, embedded summary, total machine count. -/
structure AnalysisOutput where
  probability : ℚ
  confidence : ℚ
  recommended : List Nat
  summary : StatisticalSummary
  total_machines : Nat
deriving DecidableEq, Repr

/-- Modelled from the spec: the Score Combiner (§4.4, absent from the
repository) — merges the statistical summary and the model output into the
final probability, confidence and recommendation list. -/
def combine (s : StatisticalSummary) (m : List FeatureVector)
    (v : ModelVariant) (o : ModelOutput) : AnalysisOutput :=
  let conf := confidenceScore v m.length
  { probability := combineProbability o.probability conf (statProxy s)
    confidence := conf
    recommended :=
      recommendMachines (m.map (fun fv => (fv.machine_number, relevanceOf o.relevance fv)))
    summary := s
    total_machines := s.total_machines }

/-- Modelled from the spec: one full analysis run (§2 data flow) — extract
features, summarize, score with the model (or its fallback), combine. -/
def runAnalysis (trained : Option (List FeatureVector → ModelOutput))
    (records : List MachineRecord) (w : Window) : AnalysisOutput :=
  let m := extractFeatures records w
  let s := summarize m
  let vo := runModel trained m
  combine s m vo.1 vo.2

/-! ## Analysis Orchestrator -/

/-- Modelled from the spec: the run failure kinds surfaced to a caller
(§7): an invalid window, a persistence failure, a concurrent-run
rejection. -/
inductive RunFailure
  | invalidWindow
  | persistenceError
  | concurrentRunRejected
deriving DecidableEq, Repr

/-- Modelled from the spec: the kind of a successful run result (§7) —
`insufficientData` is not an error but a degraded-confidence result. -/
inductive RunResultKind
  | normal
  | insufficientData
deriving DecidableEq, Repr

/-- Modelled from the spec: the low-confidence threshold of §8's
insufficient-data scenario ("e.g. < 0.3"). -/
def lowConfidenceThreshold : ℚ := 3 / 10

/-- Modelled from the spec: the Orchestrator's single-run path (§4.5,
absent from the repository) — an invalid window is rejected before
extraction; an empty record set in the window yields an
`insufficientData` result computed through the heuristic fallback path;
otherwise a normal run. -/
def orchestrate (trained : Option (List FeatureVector → ModelOutput))
    (records : List MachineRecord) (w : Window) :
    Except RunFailure (RunResultKind × AnalysisOutput) :=
  if w.wend < w.wstart then .error .invalidWindow
  else if (records.filter (inWindow w)).isEmpty then
    .ok (.insufficientData, runAnalysis none records w)
  else .ok (.normal, runAnalysis trained records w)

/-- Modelled from the spec: the per-store run states of §4.5. -/
inductive RunState
  | idle
  | running
  | completed
  | failed
deriving DecidableEq, Repr

/-- Modelled from the spec: what a caller requesting a run observes (§4.5,
§7) — the run was started, or it was rejected because one is in flight. -/
inductive StartReply
  | started
  | rejected
deriving DecidableEq, Repr

/-- Modelled from the spec: the orchestrator's keyed coordination state
(§9) — the store ids whose analysis is in flight, and the append-only list
of persisted predictions. -/
structure Orchestrator where
  running : List Nat
  predictions : List (Nat × AnalysisOutput)
deriving DecidableEq, Repr

/-- Modelled from the spec: a request to start a run for a store (§4.5) —
enters `running` only if no run for the same store is in flight; otherwise
the caller observes a `ConcurrentRunRejected` reply and nothing changes. -/
def requestStart (o : Orchestrator) (sid : Nat) : Orchestrator × StartReply :=
  if sid ∈ o.running then (o, .rejected)
  else ({ o with running := sid :: o.running }, .started)

/-- Modelled from the spec: completion of an in-flight run (§4.5, §5) —
the store leaves `running` and exactly one prediction is persisted
atomically; completing a store that is not running changes nothing. -/
def completeRun (o : Orchestrator) (sid : Nat) (p : AnalysisOutput) : Orchestrator :=
  if sid ∈ o.running then
    { running := o.running.erase sid, predictions := (sid, p) :: o.predictions }
  else o

/-! ## Theorems -/

/-- C1: the claim that the `AnalysisResult` interface declares precisely the
spec's presentation-contract fields fails on the code — `store_name` is a
declared field of `AnalysisResult` that is not among the contract fields
(and neither is `analysis_details.analysis_date`). -/
theorem analysisResult_declares_store_name :
    "store_name" ∈ analysisResultFields ∧ "store_name" ∉ specContractFields := by
  decide

/-- C1 (amended): the `AnalysisResult` interface declares each of the spec's
presentation-contract fields exactly once, and its only fields beyond the
contract are a store name and an analysis date. -/
theorem analysisResult_fields_amended :
    (∀ f ∈ specContractFields, f ∈ analysisResultFields) ∧
    (∀ f ∈ analysisResultFields,
      f ∈ specContractFields ∨ f = "store_name" ∨ f = "analysis_details.analysis_date") ∧
    analysisResultFields.Nodup ∧ specContractFields.Nodup := by
  decide

/-- C9: `getProbabilityColor` and `getProbabilityBgColor` are total and
agree on the colour band: green exactly when the probability is at least
0.7, yellow exactly when it is at least 0.4 and below 0.7, red exactly when
it is below 0.4, and for every probability the two functions pick the same
band. -/
theorem probabilityColor_bands (p : ℚ) :
    (getProbabilityColor p = "text-green-600" ↔ 7 / 10 ≤ p) ∧
    (getProbabilityColor p = "text-yellow-600" ↔ 2 / 5 ≤ p ∧ p < 7 / 10) ∧
    (getProbabilityColor p = "text-red-600" ↔ p < 2 / 5) ∧
    (getProbabilityBgColor p = "bg-green-100" ↔ 7 / 10 ≤ p) ∧
    (getProbabilityBgColor p = "bg-yellow-100" ↔ 2 / 5 ≤ p ∧ p < 7 / 10) ∧
    (getProbabilityBgColor p = "bg-red-100" ↔ p < 2 / 5) ∧
    (getProbabilityColor p = "text-green-600" ↔ getProbabilityBgColor p = "bg-green-100") ∧
    (getProbabilityColor p = "text-yellow-600" ↔ getProbabilityBgColor p = "bg-yellow-100") ∧
    (getProbabilityColor p = "text-red-600" ↔ getProbabilityBgColor p = "bg-red-100") := by
  have e7 : (0.7 : ℚ) = 7 / 10 := by norm_num
  have e4 : (0.4 : ℚ) = 2 / 5 := by norm_num
  unfold getProbabilityColor getProbabilityBgColor
  rw [e7, e4]
  split_ifs with h1 h2 <;>
    refine ⟨?_, ?_, ?_, ?_, ?_, ?_, ?_, ?_, ?_⟩ <;>
      (constructor <;> intro h) <;>
      first
        | rfl
        | (exact absurd h (by decide))
        | linarith
        | (exfalso; linarith)
        | (constructor <;> linarith)
        | (exfalso; obtain ⟨h, h'⟩ := h; linarith)

/-- C10: after `analyzeStore` completes, the loading flag is false in every
outcome; on success the error state is null and the result is stored; on
any failure (non-ok response or thrown exception) the error state holds a
message and the previously displayed `analysisResult` is unchanged. -/
theorem analyzeStore_state (s : PageState) (o : AnalyzeOutcome) :
    (analyzeStore s o).loading = false ∧
    (∀ d, o = AnalyzeOutcome.ok d →
      (analyzeStore s o).error = none ∧
      (analyzeStore s o).analysisResult = some d) ∧
    ((∀ d, o ≠ AnalyzeOutcome.ok d) →
      (∃ msg, (analyzeStore s o).error = some msg) ∧
      (analyzeStore s o).analysisResult = s.analysisResult) := by
  cases o with
  | ok d =>
      refine ⟨rfl, ?_, ?_⟩
      · intro d' hd
        cases hd
        exact ⟨rfl, rfl⟩
      · intro hbad
        exact absurd rfl (hbad d)
  | httpError => simp [analyzeStore, catchMessage]
  | thrown e => cases e <;> simp [analyzeStore, catchMessage]

/-- C10 witness: the theorem instantiated at the empty page state and a
non-ok HTTP response. -/
theorem analyzeStore_state_witness :
    (analyzeStore ⟨none, false, none⟩ AnalyzeOutcome.httpError).loading = false ∧
    (∀ d, AnalyzeOutcome.httpError = AnalyzeOutcome.ok d →
      (analyzeStore ⟨none, false, none⟩ AnalyzeOutcome.httpError).error = none ∧
      (analyzeStore ⟨none, false, none⟩ AnalyzeOutcome.httpError).analysisResult = some d) ∧
    ((∀ d, AnalyzeOutcome.httpError ≠ AnalyzeOutcome.ok d) →
      (∃ msg, (analyzeStore ⟨none, false, none⟩ AnalyzeOutcome.httpError).error = some msg) ∧
      (analyzeStore ⟨none, false, none⟩ AnalyzeOutcome.httpError).analysisResult = none) :=
  analyzeStore_state ⟨none, false, none⟩ AnalyzeOutcome.httpError

/-- C9 witness: the theorem instantiated at probability 1/2, which lands in
the yellow band for both functions. -/
theorem probabilityColor_bands_witness :
    (getProbabilityColor (1 / 2) = "text-yellow-600" ↔
      2 / 5 ≤ (1 / 2 : ℚ) ∧ (1 / 2 : ℚ) < 7 / 10) ∧
    (getProbabilityColor (1 / 2) = "text-yellow-600" ↔
      getProbabilityBgColor (1 / 2) = "bg-yellow-100") :=
  ⟨(probabilityColor_bands (1 / 2)).2.1,
   (probabilityColor_bands (1 / 2)).2.2.2.2.2.2.2.1⟩

/-- Modelled from the spec: the top-performer order of §4.2 stated on the
`HighPerformer` entries a summary exposes — net difference descending,
ties broken by ascending machine number. -/
def hpLE (a b : HighPerformer) : Prop :=
  b.total_difference < a.total_difference ∨
    (a.total_difference = b.total_difference ∧ a.machine_number ≤ b.machine_number)

/-- C3: the Statistical Analyzer's top-performer list has length at most 5,
is sorted descending by net difference with ties broken by ascending
machine number, and a matrix with fewer than 5 machines yields a list of
exactly the matrix's length rather than an error. -/
theorem topPerformers_spec (m : List FeatureVector) :
    (summarize m).high_performers.length ≤ 5 ∧
    List.Sorted hpLE (summarize m).high_performers ∧
    (m.length < 5 → (summarize m).high_performers.length = m.length) := by
  have hsort : List.Sorted perfLE (topPerformers m) :=
    List.Pairwise.sublist (List.take_sublist 5 _) (List.sorted_insertionSort perfLE m)
  have hlen : (summarize m).high_performers.length = min 5 m.length := by
    simp [summarize, topPerformers]
  refine ⟨?_, ?_, ?_⟩
  · rw [hlen]; exact min_le_left _ _
  · exact List.Pairwise.map _ (fun a b hab => hab) hsort
  · intro h; omega

/-- C3 witness: a two-machine matrix — the high-performer list has both
machines, sorted, and its length equals the matrix length 2 < 5. -/
theorem topPerformers_spec_witness :
    ([⟨14, "A", 3000, 890, 0, true⟩,
      ⟨3, "B", 1200, -40, 0, false⟩] : List FeatureVector).length < 5 ∧
    ((summarize [⟨14, "A", 3000, 890, 0, true⟩,
        ⟨3, "B", 1200, -40, 0, false⟩]).high_performers.length ≤ 5 ∧
      List.Sorted hpLE (summarize [⟨14, "A", 3000, 890, 0, true⟩,
        ⟨3, "B", 1200, -40, 0, false⟩]).high_performers ∧
      (([⟨14, "A", 3000, 890, 0, true⟩,
          ⟨3, "B", 1200, -40, 0, false⟩] : List FeatureVector).length < 5 →
        (summarize [⟨14, "A", 3000, 890, 0, true⟩,
          ⟨3, "B", 1200, -40, 0, false⟩]).high_performers.length =
          ([⟨14, "A", 3000, 890, 0, true⟩,
            ⟨3, "B", 1200, -40, 0, false⟩] : List FeatureVector).length)) :=
  ⟨by decide,
   topPerformers_spec [⟨14, "A", 3000, 890, 0, true⟩, ⟨3, "B", 1200, -40, 0, false⟩]⟩

/-- C4: for any scored machine list whose machine numbers are distinct (one
feature vector per machine, the data model's validity condition), the Score
Combiner's recommended machine list has no duplicates, has length at most
5, and lists the pairs it projects from sorted descending by relevance with
ties broken by ascending machine number. -/
theorem recommendMachines_spec (scored : List (Nat × ℚ))
    (h : (scored.map Prod.fst).Nodup) :
    (recommendMachines scored).Nodup ∧
    (recommendMachines scored).length ≤ 5 ∧
    List.Sorted relLE (recommendedPairs scored) := by
  have h1 : ((scored.filter (fun q => decide (minRelevance < q.2))).map Prod.fst).Nodup :=
    List.Nodup.sublist (List.Sublist.map Prod.fst (List.filter_sublist scored)) h
  have h2 : (((List.insertionSort relLE
      (scored.filter (fun q => decide (minRelevance < q.2)))).map Prod.fst)).Nodup :=
    (List.Perm.nodup_iff (List.Perm.map Prod.fst (List.perm_insertionSort relLE _))).mpr h1
  refine ⟨?_, ?_, ?_⟩
  · exact List.Nodup.sublist
      (List.Sublist.map Prod.fst (List.take_sublist 5 _)) h2
  · simp only [recommendMachines, recommendedPairs, List.length_map, List.length_take]
    omega
  · exact List.Pairwise.sublist (List.take_sublist 5 _)
      (List.sorted_insertionSort relLE _)

/-- C4 witness: the theorem instantiated at two scored machines with
distinct machine numbers. -/
theorem recommendMachines_spec_witness :
    (([(1, (5 : ℚ)), (2, 3)] : List (Nat × ℚ)).map Prod.fst).Nodup ∧
    ((recommendMachines [(1, (5 : ℚ)), (2, 3)]).Nodup ∧
      (recommendMachines [(1, (5 : ℚ)), (2, 3)]).length ≤ 5 ∧
      List.Sorted relLE (recommendedPairs [(1, (5 : ℚ)), (2, 3)])) :=
  ⟨by decide, recommendMachines_spec [(1, (5 : ℚ)), (2, 3)] (by decide)⟩

/-- C5: a machine's bonus rate is its bonus count divided by its game count
and is 0 when the game count is 0 (never a division error), and the average
game count and average net difference of an empty feature matrix are 0. -/
theorem division_guards (n : Nat) (rs : List MachineRecord) :
    ((aggregateMachine n rs).game_count = 0 → (aggregateMachine n rs).bonus_rate = 0) ∧
    ((aggregateMachine n rs).game_count ≠ 0 →
      (aggregateMachine n rs).bonus_rate =
        ((rs.map bonusCount).sum : ℚ) / (((rs.map (fun r => r.game_count)).sum : ℕ) : ℚ)) ∧
    averageGameCount [] = 0 ∧ averageDifference [] = 0 := by
  refine ⟨?_, ?_, by simp [averageGameCount], by simp [averageDifference]⟩
  · intro h
    simp only [aggregateMachine] at h ⊢
    simp [h]
  · intro h
    simp only [aggregateMachine] at h ⊢
    simp only [if_neg h]

/-- C5 witness: a machine whose only record has game count 0 gets bonus
rate 0, and the empty-matrix averages are 0. -/
theorem division_guards_witness :
    (aggregateMachine 7 [⟨1, 7, "M", 0, 1, 2, 3, -10, 0⟩]).game_count = 0 ∧
    ((aggregateMachine 7 [⟨1, 7, "M", 0, 1, 2, 3, -10, 0⟩]).bonus_rate = 0 ∧
      averageGameCount [] = 0 ∧ averageDifference [] = 0) :=
  ⟨rfl,
   ⟨(division_guards 7 [⟨1, 7, "M", 0, 1, 2, 3, -10, 0⟩]).1 rfl,
    (division_guards 7 [⟨1, 7, "M", 0, 1, 2, 3, -10, 0⟩]).2.2⟩⟩

/-- C7: for a store with no run in flight, the first of two simultaneous
requests is the only one to enter `running` (its store appears there
exactly once), the second caller observes a rejection and changes nothing
— so no duplicate run and no duplicate prediction — and completing the one
in-flight run persists exactly one prediction. -/
theorem atMostOneRun (o : Orchestrator) (sid : Nat) (p : AnalysisOutput)
    (h : sid ∉ o.running) :
    (requestStart o sid).2 = StartReply.started ∧
    (requestStart o sid).1.running.count sid = 1 ∧
    (requestStart (requestStart o sid).1 sid).2 = StartReply.rejected ∧
    (requestStart (requestStart o sid).1 sid).1 = (requestStart o sid).1 ∧
    (completeRun (requestStart o sid).1 sid p).predictions = (sid, p) :: o.predictions := by
  simp [requestStart, completeRun, h, List.count_cons_self,
    List.count_eq_zero.mpr h]

/-- C7 witness: the theorem at an idle orchestrator, store 7 and the result
of an empty analysis run. -/
theorem atMostOneRun_witness :
    (7 ∉ (Orchestrator.mk [] []).running) ∧
    ((requestStart ⟨[], []⟩ 7).2 = StartReply.started ∧
      (requestStart ⟨[], []⟩ 7).1.running.count 7 = 1 ∧
      (requestStart (requestStart ⟨[], []⟩ 7).1 7).2 = StartReply.rejected ∧
      (requestStart (requestStart ⟨[], []⟩ 7).1 7).1 = (requestStart ⟨[], []⟩ 7).1 ∧
      (completeRun (requestStart ⟨[], []⟩ 7).1 7
          (runAnalysis none [] ⟨0, 0⟩)).predictions =
        (7, runAnalysis none [] ⟨0, 0⟩) :: (Orchestrator.mk [] []).predictions) :=
  ⟨by simp, atMostOneRun ⟨[], []⟩ 7 (runAnalysis none [] ⟨0, 0⟩) (by simp)⟩

lemma statProxy_nonneg (s : StatisticalSummary) : 0 ≤ statProxy s := by
  unfold statProxy
  split_ifs
  · exact le_refl 0
  · positivity

lemma statProxy_summarize_le_one (m : List FeatureVector) :
    statProxy (summarize m) ≤ 1 := by
  have hc : positiveCount m ≤ m.length := List.length_filter_le _ m
  unfold statProxy summarize
  dsimp only
  split_ifs with h
  · norm_num
  · have hpos : (0 : ℚ) < m.length := by exact_mod_cast Nat.pos_of_ne_zero h
    rw [div_le_one hpos]
    exact_mod_cast hc

lemma confidenceScore_nonneg (v : ModelVariant) (n : Nat) :
    0 ≤ confidenceScore v n := by
  unfold confidenceScore sizeFactor
  have hx : (0 : ℚ) ≤ min 1 ((n : ℚ) / (minTrustedMachines : ℚ)) :=
    le_min (by norm_num) (by positivity)
  cases v <;> · unfold baseConfidence; positivity

lemma confidenceScore_le_one (v : ModelVariant) (n : Nat) :
    confidenceScore v n ≤ 1 := by
  unfold confidenceScore sizeFactor
  have hx1 : min 1 ((n : ℚ) / (minTrustedMachines : ℚ)) ≤ 1 := min_le_left _ _
  have hx0 : (0 : ℚ) ≤ min 1 ((n : ℚ) / (minTrustedMachines : ℚ)) :=
    le_min (by norm_num) (by positivity)
  cases v <;> · unfold baseConfidence; nlinarith

lemma combineProbability_mem (p c x : ℚ)
    (hp0 : 0 ≤ p) (hp1 : p ≤ 1) (hc0 : 0 ≤ c) (hc1 : c ≤ 1)
    (hx0 : 0 ≤ x) (hx1 : x ≤ 1) :
    0 ≤ combineProbability p c x ∧ combineProbability p c x ≤ 1 := by
  unfold combineProbability
  constructor <;> nlinarith

lemma runModel_probability_mem (trained : Option (List FeatureVector → ModelOutput))
    (m : List FeatureVector)
    (h : ∀ f fm, trained = some f →
      0 ≤ (f fm).probability ∧ (f fm).probability ≤ 1) :
    0 ≤ (runModel trained m).2.probability ∧ (runModel trained m).2.probability ≤ 1 := by
  unfold runModel
  cases trained with
  | none =>
      exact ⟨statProxy_nonneg _, statProxy_summarize_le_one m⟩
  | some f =>
      split_ifs with hsz
      · exact h f m rfl
      · exact ⟨statProxy_nonneg _, statProxy_summarize_le_one m⟩

/-- C2: for every valid input to an analysis run — any record set, any
window, and any trained estimator honoring its §4.3 contract of producing
probabilities in [0,1] (or no estimator at all) — the produced high-setting
probability and confidence score both lie in [0,1]. -/
theorem analysis_outputs_in_unit_interval
    (trained : Option (List FeatureVector → ModelOutput))
    (records : List MachineRecord) (w : Window)
    (h : ∀ f fm, trained = some f →
      0 ≤ (f fm).probability ∧ (f fm).probability ≤ 1) :
    0 ≤ (runAnalysis trained records w).probability ∧
    (runAnalysis trained records w).probability ≤ 1 ∧
    0 ≤ (runAnalysis trained records w).confidence ∧
    (runAnalysis trained records w).confidence ≤ 1 := by
  have hm := runModel_probability_mem trained (extractFeatures records w) h
  have hx0 := statProxy_nonneg (summarize (extractFeatures records w))
  have hx1 := statProxy_summarize_le_one (extractFeatures records w)
  have hc0 := confidenceScore_nonneg
    (runModel trained (extractFeatures records w)).1 (extractFeatures records w).length
  have hc1 := confidenceScore_le_one
    (runModel trained (extractFeatures records w)).1 (extractFeatures records w).length
  have hp := combineProbability_mem
    (runModel trained (extractFeatures records w)).2.probability
    (confidenceScore (runModel trained (extractFeatures records w)).1
      (extractFeatures records w).length)
    (statProxy (summarize (extractFeatures records w)))
    hm.1 hm.2 hc0 hc1 hx0 hx1
  exact ⟨hp.1, hp.2, hc0, hc1⟩

/-- C2 witness: the theorem at no trained estimator, an empty record set
and the one-day window 0-0; the estimator contract hypothesis is vacuous. -/
theorem analysis_outputs_in_unit_interval_witness :
    (∀ f fm, (none : Option (List FeatureVector → ModelOutput)) = some f →
      0 ≤ (f fm).probability ∧ (f fm).probability ≤ 1) ∧
    (0 ≤ (runAnalysis none [] ⟨0, 0⟩).probability ∧
      (runAnalysis none [] ⟨0, 0⟩).probability ≤ 1 ∧
      0 ≤ (runAnalysis none [] ⟨0, 0⟩).confidence ∧
      (runAnalysis none [] ⟨0, 0⟩).confidence ≤ 1) :=
  ⟨by simp, analysis_outputs_in_unit_interval none [] ⟨0, 0⟩ (by simp)⟩

/-- C6: the analysis pipeline is deterministic — two runs on equal record
sets with equal windows produce the same `StatisticalSummary`, and with the
same deterministic model the same full output, probability and confidence
included. -/
theorem analysis_deterministic
    (trained : Option (List FeatureVector → ModelOutput))
    (r1 r2 : List MachineRecord) (w1 w2 : Window)
    (hr : r1 = r2) (hw : w1 = w2) :
    summarize (extractFeatures r1 w1) = summarize (extractFeatures r2 w2) ∧
    runAnalysis trained r1 w1 = runAnalysis trained r2 w2 := by
  subst hr
  subst hw
  exact ⟨rfl, rfl⟩

/-- C6 witness: the theorem at a concrete one-record set and window. -/
theorem analysis_deterministic_witness :
    ([⟨1, 14, "A", 100, 1, 2, 3, 890, 5⟩] : List MachineRecord) =
      [⟨1, 14, "A", 100, 1, 2, 3, 890, 5⟩] ∧
    (Window.mk 0 9) = Window.mk 0 9 ∧
    (summarize (extractFeatures [⟨1, 14, "A", 100, 1, 2, 3, 890, 5⟩] ⟨0, 9⟩) =
      summarize (extractFeatures [⟨1, 14, "A", 100, 1, 2, 3, 890, 5⟩] ⟨0, 9⟩) ∧
    runAnalysis none [⟨1, 14, "A", 100, 1, 2, 3, 890, 5⟩] ⟨0, 9⟩ =
      runAnalysis none [⟨1, 14, "A", 100, 1, 2, 3, 890, 5⟩] ⟨0, 9⟩) :=
  ⟨rfl, rfl,
   analysis_deterministic none
     [⟨1, 14, "A", 100, 1, 2, 3, 890, 5⟩] [⟨1, 14, "A", 100, 1, 2, 3, 890, 5⟩]
     ⟨0, 9⟩ ⟨0, 9⟩ rfl rfl⟩

/-- C8: for a valid window in which the store's record set is empty, the
Orchestrator returns a well-defined `insufficientData` result computed via
the heuristic fallback (the trained estimator is not consulted), with
probability equal to the heuristic default 0 and confidence 0, below the
low-confidence threshold 0.3 — not an error. -/
theorem insufficientData_path
    (trained : Option (List FeatureVector → ModelOutput))
    (records : List MachineRecord) (w : Window)
    (hw : w.wstart ≤ w.wend) (he : records.filter (inWindow w) = []) :
    orchestrate trained records w =
      Except.ok (RunResultKind.insufficientData, runAnalysis none records w) ∧
    (runAnalysis none records w).confidence < lowConfidenceThreshold ∧
    (runAnalysis none records w).probability = 0 := by
  have hm : extractFeatures records w = [] := by
    unfold extractFeatures
    rw [he]
    rfl
  have hproxy : statProxy (summarize ([] : List FeatureVector)) = 0 := by
    simp [statProxy, summarize]
  refine ⟨?_, ?_, ?_⟩
  · unfold orchestrate
    rw [if_neg (Nat.not_lt.mpr hw), if_pos (by simp [he])]
  · simp only [runAnalysis]
    rw [hm]
    simp only [combine, runModel]
    norm_num [confidenceScore, sizeFactor, baseConfidence, minTrustedMachines,
      lowConfidenceThreshold, min_def]
  · simp only [runAnalysis]
    rw [hm]
    simp only [combine, runModel, heuristicModel]
    simp [combineProbability, hproxy]

/-- C8 witness: the theorem at an empty record set and the window 0-3. -/
theorem insufficientData_path_witness :
    (Window.mk 0 3).wstart ≤ (Window.mk 0 3).wend ∧
    ([] : List MachineRecord).filter (inWindow ⟨0, 3⟩) = [] ∧
    (orchestrate none [] ⟨0, 3⟩ =
      Except.ok (RunResultKind.insufficientData, runAnalysis none [] ⟨0, 3⟩) ∧
    (runAnalysis none [] ⟨0, 3⟩).confidence < lowConfidenceThreshold ∧
    (runAnalysis none [] ⟨0, 3⟩).probability = 0) :=
  ⟨by decide, rfl, insufficientData_path none [] ⟨0, 3⟩ (by decide) rfl⟩

end Sumaslo
